import Mathlib

/-!
Shallow embedding of the gfnmixtures repository (GFlowNet molecule trainer):
the SEH fragment task (`src/gflownet/tasks/seh_frag.py`), its multi-objective
variant (`src/gflownet/tasks/seh_frag_moo.py`), and the launcher (`job.py`).

Numeric tensors are modelled over `ℚ` (the float kernels `log`, `exp` and the
random draws are external and appear as explicit function parameters); tensor
shapes are modelled as lists of dimensions where a claim is about shapes.
External collaborators (the RDKit molecule type, the pretrained SEH proxy, the
k-means classifier) are opaque parameters, exactly as the spec scopes them.
-/

set_option autoImplicit false

namespace GFN

/-- Opaque RDKit molecule handle (external collaborator). -/
structure Mol where
  id : Nat
deriving DecidableEq, Repr

/-- Opaque torch-geometric graph produced by `bengio2021flow.mol2graph` (external). -/
structure Graph where
  id : Nat
deriving DecidableEq, Repr

/-- Python exceptions that the modelled code can raise. -/
inductive PyError where
  | assertionError (msg : String)
  | attributeError (msg : String)
  | runtimeError (msg : String)
  | indexError (msg : String)
  | typeError (msg : String)
deriving DecidableEq, Repr

deriving instance DecidableEq for Except

/-- `x.clip(lo, hi)` / `np.clip` on a scalar. -/
def clipQ (x lo hi : ℚ) : ℚ := min (max x lo) hi

/-- `tensor.clamp(min=lo)` on a scalar. -/
def clampMin (lo x : ℚ) : ℚ := max lo x

/-- Row-major 2-D tensor with explicit shape, so that empty tensors such as
`torch.zeros((0, k))` keep their column count. -/
structure Tensor2 where
  rows : Nat
  cols : Nat
  data : List (List ℚ)
deriving DecidableEq, Repr

/-!
## Trainer step (`seh_frag.py`, `SEHFragTrainer.step`, lines 264-277)

`loss.backward()`, gradient clipping and the two Adam/scheduler steps are the
external autograd and optimizer kernels; their net effect is that
`self.model.parameters()` holds new values when the EMA loop runs, so the
post-optimizer parameter values are an explicit input here.  Parameters are
flattened to one list of scalars.
-/

structure TrainerState where
  modelParams : List ℚ
  samplingParams : List ℚ
  samplingTau : ℚ
deriving DecidableEq, Repr

/-- `SEHFragTrainer.step` after the optimizer updates: when `sampling_tau > 0`,
`b.data.mul_(self.sampling_tau).add_(a.data * (1 - self.sampling_tau))` for each
pair `(a, b)` of model/sampling-model parameters; when `sampling_tau = 0` the
sampling model is the very same object as the model (aliased in `setup`). -/
def trainerStep (s : TrainerState) (newModelParams : List ℚ) : TrainerState :=
  let modelParams := newModelParams
  let samplingParams :=
    if s.samplingTau > 0 then
      List.zipWith (fun a b => b * s.samplingTau + a * (1 - s.samplingTau))
        modelParams s.samplingParams
    else modelParams
  ⟨modelParams, samplingParams, s.samplingTau⟩

/-!
## Launcher configuration (`job.py`, lines 19-55)

Only the hyperparameters that the partition block touches are tracked as
fields; the remaining entries of the literal dict are constants irrelevant to
the configuration control flow.
-/

structure JobHps where
  offlineRatio : ℚ
  samplingTau : ℚ
  temperatureSampleDist : String
  temperatureDistParams : ℚ
  part : Option Int
  totalParts : Option Int
deriving DecidableEq, Repr

/-- The literal `hps` dict of `job.py` lines 19-38. -/
def jobInitialHps : JobHps :=
  { offlineRatio := 0
  , samplingTau := 99 / 100
  , temperatureSampleDist := "constant"
  , temperatureDistParams := 32
  , part := none
  , totalParts := none }

/-- Methods a Python `dict` object actually has; attribute lookup of anything
else raises `AttributeError`. -/
def dictMethodNames : List String :=
  ["clear", "copy", "fromkeys", "get", "items", "keys", "pop", "popitem",
   "setdefault", "update", "values"]

def dictHasAttr (m : String) : Bool := dictMethodNames.contains m

/-- `job.py` lines 40-44: the partition block.  Returns the dict state together
with the exception raised while building it, if any.  The third `hps.upate`
call is an attribute lookup of the misspelled name `upate` on a dict, which
raises before the `offline_ratio` value is ever written. -/
def jobConfigure (part totalParts : Option Int) : JobHps × Option PyError :=
  let hps := jobInitialHps
  match part, totalParts with
  | some p, some tp =>
    if tp > 1 then
      let hps := { hps with part := some p }
      let hps := { hps with totalParts := some tp }
      if dictHasAttr "upate" then
        ({ hps with offlineRatio := 1 / 4 }, none)
      else
        (hps, some (.attributeError "dict object has no attribute upate"))
    else (hps, none)
  | _, _ => (hps, none)

/-!
## Reward computation (`seh_frag.py`, `SEHTask.compute_flat_rewards`, lines 116-151)

`bengio2021flow.mol2graph`, the pretrained proxy and the k-means classifier
are external; they appear as the parameters `mol2graph`, `proxy` and
`kmeans` (the batched proxy call and the batched classifier call act
elementwise).  The wandb telemetry block (lines 129-146) only logs statistics
and is omitted.  `preds[preds.isnan()] = 0` is the identity over `ℚ`, which
has no NaN, and is omitted as well.
-/

/-- `SEHTask.flat_reward_transform` (line 64-65). -/
def flatRewardTransform (y : ℚ) : ℚ := y / 8

/-- Boolean-mask assignment `preds[mask] = 0` on a 1-D tensor; torch raises an
`IndexError` when the mask length does not match the tensor length. -/
def maskedZero (preds : List ℚ) (mask : List Bool) : Except PyError (List ℚ) :=
  if preds.length = mask.length then
    .ok ((preds.zip mask).map (fun p => if p.2 then 0 else p.1))
  else .error (.indexError "mask shape mismatch")

/-- `SEHTask.compute_flat_rewards` (lines 116-151).  `part` is
`self.part` (`None` outside sharded-reward mode); `kmeans` classifies a
molecule into its partition id. -/
def sehComputeFlatRewards (part : Option Int) (mol2graph : Mol → Option Graph)
    (proxy : Graph → ℚ) (kmeans : Mol → Int) (mols : List Mol) :
    Except PyError (Tensor2 × List Bool) :=
  let graphs := mols.map mol2graph
  let isValid := graphs.map Option.isSome
  if !(isValid.any id) then
    .ok (⟨0, 1, []⟩, isValid)
  else
    let preds0 := (graphs.filterMap id).map proxy
    let predsE : Except PyError (List ℚ) :=
      match part with
      | some p => maskedZero preds0 ((mols.map kmeans).map (fun q => decide (q ≠ p)))
      | none => .ok preds0
    match predsE with
    | .error e => .error e
    | .ok preds =>
      let out := preds.map (fun y => clipQ (flatRewardTransform y) (1 / 10000) 100)
      .ok (⟨out.length, 1, out.map (fun x => [x])⟩, isValid)

/-!
## Multi-objective reward computation
(`seh_frag_moo.py`, `SEHMOOTask.compute_flat_rewards`, lines 128-164)

The RDKit descriptors `QED.qed`, `sascore.calculateScore` and
`Descriptors.MolWt` are external and may raise; they appear as `Except`-valued
parameters.  `seh_preds[seh_preds.isnan()] = 0` is again the identity over
`ℚ` and is omitted.
-/

/-- The local helper `safe(f, x, default)` of `compute_flat_rewards`
(lines 143-147): call `f(x)`, catching any exception and substituting
`default`. -/
def safe (f : Mol → Except PyError ℚ) (x : Mol) (default : ℚ) : ℚ :=
  match f x with
  | .ok y => y
  | .error _ => default

/-- `torch.stack(cols, dim=1)` for `k` columns of common length `r`:
the resulting rows. -/
def stackCols (cols : List (List ℚ)) (r : Nat) : List (List ℚ) :=
  (List.range r).map (fun i => cols.map (fun c => c.getD i 0))

/-- `SEHMOOTask.compute_flat_rewards` (lines 128-164).  Each objective column
is appended in the fixed source order seh, qed, sa, mw, guarded by membership
in `objectives`. -/
def mooComputeFlatRewards (objectives : List String) (mol2graph : Mol → Option Graph)
    (proxy : Graph → ℚ) (qedF saF mwF : Mol → Except PyError ℚ) (mols : List Mol) :
    Tensor2 × List Bool :=
  let graphs := mols.map mol2graph
  let isValid := graphs.map Option.isSome
  if !(isValid.any id) then
    (⟨0, objectives.length, []⟩, isValid)
  else
    let validMols := ((mols.zip isValid).filter (fun p => p.2)).map (fun p => p.1)
    let cols : List (List ℚ) :=
      (if objectives.contains "seh" then
        [(graphs.filterMap id).map (fun g => clipQ (proxy g) (1 / 10000) 100 / 8)]
       else []) ++
      (if objectives.contains "qed" then
        [validMols.map (fun m => safe qedF m 0)]
       else []) ++
      (if objectives.contains "sa" then
        [validMols.map (fun m => (10 - safe saF m 10) / 9)]
       else []) ++
      (if objectives.contains "mw" then
        [validMols.map (fun m => clipQ ((300 - safe mwF m 1000) / 700 + 1) 0 1)]
       else [])
    let rows := stackCols cols validMols.length
    (⟨rows.length, cols.length, rows⟩, isValid)

/-!
## Scalarization (`cond_info_to_logreward`)

Two complementary views of the same source lines are embedded: a value-level
view over `ℚ` (with `torch.log` as the external parameter `log`), and a
shape-level view over torch shapes, which carries the `assert` of
lines 111-113 / 123-125 and torch broadcasting.
-/

/-- `tensor.squeeze()` on an `(n, 1)` column tensor with `n ≥ 2`: the column
values.  (The `n = 1` case collapses to a 0-dim tensor and is trapped by the
assert; see the shape-level view.) -/
def squeezeCol (t : List (List ℚ)) : List ℚ := t.map (fun row => row.headD 0)

/-- `SEHTask.cond_info_to_logreward` (lines 107-114), value level:
`flat_reward.squeeze().clamp(min=1e-30).log() * cond_info["beta"]`.
The `isinstance(flat_reward, list)` conversion is the identity on an already
tensor-shaped input, and the shape assert lives in the shape-level view. -/
def sehCondInfoToLogreward (log : ℚ → ℚ) (beta : List ℚ)
    (flatReward : List (List ℚ)) : List ℚ :=
  let scalarLogreward := (squeezeCol flatReward).map (fun r => log (clampMin (1 / 10 ^ 30) r))
  List.zipWith (fun a b => a * b) scalarLogreward beta

/-- Row dot product, i.e. one row of `(flat_reward * preferences).sum(1)`. -/
def dotQ (xs ys : List ℚ) : ℚ := (List.zipWith (fun a b => a * b) xs ys).sum

/-- `SEHMOOTask.cond_info_to_logreward` (lines 116-126), value level:
`(flat_reward * cond_info["preferences"]).sum(1).clamp(min=1e-30).log() *
cond_info["beta"]`. -/
def mooCondInfoToLogreward (log : ℚ → ℚ) (beta : List ℚ)
    (preferences flatReward : List (List ℚ)) : List ℚ :=
  let scalarLogreward :=
    (List.zipWith dotQ flatReward preferences).map (fun s => log (clampMin (1 / 10 ^ 30) s))
  List.zipWith (fun a b => a * b) scalarLogreward beta

/-- Torch tensor shape. -/
abbrev Shape := List Nat

/-- `tensor.squeeze()`: remove every dimension of size 1. -/
def squeezeShape (s : Shape) : Shape := s.filter (fun d => d ≠ 1)

/-- Torch broadcasting on reversed (trailing-first) shapes. -/
def broadcastRev : List Nat → List Nat → Option (List Nat)
  | [], ys => some ys
  | x :: xs, [] => some (x :: xs)
  | x :: xs, y :: ys =>
    if x = y then (broadcastRev xs ys).map (fun t => x :: t)
    else if x = 1 then (broadcastRev xs ys).map (fun t => y :: t)
    else if y = 1 then (broadcastRev xs ys).map (fun t => x :: t)
    else none

/-- Torch broadcasting of two shapes; `none` is a broadcast `RuntimeError`. -/
def broadcastShapes (a b : Shape) : Option Shape :=
  (broadcastRev a.reverse b.reverse).map List.reverse

/-- `tensor.sum(dim)` (keepdim=False): remove dimension `dim`. -/
def sumOutDim (s : Shape) (dim : Nat) : Shape := s.take dim ++ s.drop (dim + 1)

/-- `SEHTask.cond_info_to_logreward`, shape level: squeeze, clamp and log
(shape-preserving), the `assert len(scalar_logreward.shape) ==
len(cond_info["beta"].shape)` of lines 111-113, then the broadcast multiply
with `beta`. -/
def sehCondInfoToLogrewardShape (flatShape betaShape : Shape) : Except PyError Shape :=
  let s := squeezeShape flatShape
  if s.length = betaShape.length then
    match broadcastShapes s betaShape with
    | some r => .ok r
    | none => .error (.runtimeError "The size of tensor a must match the size of tensor b")
  else .error (.assertionError "dangerous shape mismatch")

/-- `SEHMOOTask.cond_info_to_logreward`, shape level: elementwise multiply
with `preferences` (broadcast), `.sum(1)`, clamp and log (shape-preserving),
the assert of lines 123-125, then the broadcast multiply with `beta`. -/
def mooCondInfoToLogrewardShape (flatShape prefShape betaShape : Shape) :
    Except PyError Shape :=
  match broadcastShapes flatShape prefShape with
  | none => .error (.runtimeError "The size of tensor a must match the size of tensor b")
  | some ms =>
    let s := sumOutDim ms 1
    if s.length = betaShape.length then
      match broadcastShapes s betaShape with
      | some r => .ok r
      | none => .error (.runtimeError "The size of tensor a must match the size of tensor b")
    else .error (.assertionError "dangerous shape mismatch")

/-!
## Conditional-information sampling and encoding

`gflownet.utils.transforms.thermometer` is code of this repository that is
not under `src/`; it is modelled from the spec below.  The numpy random draws
are external: each family takes an indexed draw stream, so that `n` draws are
the stream values at indices `0..n-1`.
-/

/-- Modelled from the spec: `gflownet.utils.transforms.thermometer` (the file
`src/gflownet/utils/transforms.py` is not under `src/`).  Given a scalar `x`
and dimension `d` over range `[lo, hi]`, produces a length-`d` vector whose
`i`-th entry is `clip((x - lo)/(hi - lo)*d - i, 0, 1)`. -/
def thermometer (d : Nat) (lo hi x : ℚ) : List ℚ :=
  (List.range d).map (fun i => clipQ ((x - lo) / (hi - lo) * d - i) 0 1)

/-- `self.temperature_dist_params`: either a single float (as the `constant`
family expects) or a pair. -/
inductive TDParams where
  | scalar (x : ℚ)
  | pair (a b : ℚ)
deriving DecidableEq, Repr

/-- Conditioning information produced by `SEHTask.sample_conditional_information`. -/
structure CondInfo where
  beta : List ℚ
  encoding : List (List ℚ)
deriving DecidableEq, Repr

/-- The state an `SEHTask.__init__` (lines 40-62) leaves behind for
conditional-information sampling: the distribution name and parameters are
stored untouched; no validation of the family name happens at construction. -/
structure SEHTaskState where
  temperatureSampleDist : String
  temperatureDistParams : TDParams
  numThermometerDim : Nat
deriving DecidableEq, Repr

/-- `SEHTask.__init__`: store the configuration; nothing raises here for any
distribution-family string. -/
def sehTaskInit (dist : String) (params : TDParams) (d : Nat) :
    Except PyError SEHTaskState :=
  .ok ⟨dist, params, d⟩

/-- `SEHTask.sample_conditional_information` (lines 81-105).  `rngGamma`,
`rngUniform`, `rngBeta` are indexed draw streams of the numpy generator;
`gammaPpf95 loc scale` is `scipy.stats.gamma.ppf(0.95, loc, scale=scale)`;
`expQ`/`logQ` are the float kernels.  A family outside the five supported
names leaves `beta = None`, and line 102 then evaluates
`torch.tensor(None)`, which raises a `RuntimeError`. -/
def sehSampleConditionalInformation
    (rngGamma rngUniform rngBeta : ℚ → ℚ → Nat → ℚ)
    (gammaPpf95 : ℚ → ℚ → ℚ) (expQ logQ : ℚ → ℚ)
    (task : SEHTaskState) (n : Nat) : Except PyError CondInfo :=
  let d := task.numThermometerDim
  if task.temperatureSampleDist = "constant" then
    match task.temperatureDistParams with
    | .scalar x => .ok ⟨List.replicate n x, List.replicate n (List.replicate d 0)⟩
    | .pair _ _ => .error (.assertionError "type of temperature_dist_params is not float")
  else if task.temperatureSampleDist = "gamma" then
    match task.temperatureDistParams with
    | .pair loc scale =>
      let beta := (List.range n).map (rngGamma loc scale)
      let upperBound := gammaPpf95 loc scale
      .ok ⟨beta, beta.map (thermometer d 0 upperBound)⟩
    | .scalar _ => .error (.typeError "cannot unpack non-sequence float")
  else if task.temperatureSampleDist = "uniform" then
    match task.temperatureDistParams with
    | .pair lo hi =>
      let beta := (List.range n).map (rngUniform lo hi)
      .ok ⟨beta, beta.map (thermometer d 0 hi)⟩
    | .scalar _ => .error (.typeError "cannot unpack non-sequence float")
  else if task.temperatureSampleDist = "loguniform" then
    match task.temperatureDistParams with
    | .pair lo hi =>
      let beta := (List.range n).map (fun i => expQ (rngUniform (logQ lo) (logQ hi) i))
      .ok ⟨beta, beta.map (thermometer d 0 hi)⟩
    | .scalar _ => .error (.typeError "cannot unpack non-sequence float")
  else if task.temperatureSampleDist = "beta" then
    match task.temperatureDistParams with
    | .pair a b =>
      let beta := (List.range n).map (rngBeta a b)
      .ok ⟨beta, beta.map (thermometer d 0 1)⟩
    | .scalar _ => .error (.typeError "cannot unpack non-sequence float")
  else
    .error (.runtimeError "Could not infer dtype of NoneType")

/-!
## Multi-objective conditioning (`seh_frag_moo.py`, lines 78-114)

The Dirichlet draws are external and appear as indexed row streams.
-/

/-- Conditioning information of the multi-objective task. -/
structure MOOCondInfo where
  beta : List ℚ
  encoding : List (List ℚ)
  preferences : List (List ℚ)
deriving DecidableEq, Repr

/-- The configuration state of an `SEHMOOTask` relevant to conditioning. -/
structure SEHMOOTaskState where
  base : SEHTaskState
  objectives : List String
  usePrefThermometer : Bool
  seededPreference : Option (List ℚ)
  experimentalDirichlet : Bool
deriving DecidableEq, Repr

/-- `SEHMOOTask.sample_conditional_information` (lines 78-98): the single-task
sample, then the sampled preference matrix, then
`thermometer(preferences, self.num_thermometer_dim, 0, 1).reshape(n, -1)` when
`use_pref_thermometer` else the raw preferences, concatenated after the
encoding along dim 1 (`torch.cat([cond_info["encoding"], preferences_enc], 1)`). -/
def mooSampleConditionalInformation
    (rngGamma rngUniform rngBeta : ℚ → ℚ → Nat → ℚ)
    (gammaPpf95 : ℚ → ℚ → ℚ) (expQ logQ : ℚ → ℚ)
    (dirichletExpSample dirichletSample : Nat → List ℚ)
    (task : SEHMOOTaskState) (n : Nat) : Except PyError MOOCondInfo :=
  match sehSampleConditionalInformation rngGamma rngUniform rngBeta gammaPpf95
      expQ logQ task.base n with
  | .error e => .error e
  | .ok ci =>
    let d := task.base.numThermometerDim
    let preferences :=
      match task.seededPreference with
      | some pref => List.replicate n pref
      | none =>
        if task.experimentalDirichlet then (List.range n).map dirichletExpSample
        else (List.range n).map dirichletSample
    let preferencesEnc :=
      if task.usePrefThermometer then
        preferences.map (fun p => (p.map (thermometer d 0 1)).flatten)
      else preferences
    .ok ⟨ci.beta, List.zipWith (fun a b => a ++ b) ci.encoding preferencesEnc, preferences⟩

/-- `SEHMOOTask.encode_conditional_information` (lines 100-114).  In the
`constant` branch, `torch.ones(n) * self.temperature_dist_params` with a pair
of parameters is a shape-`(n,)` by shape-`(2,)` broadcast, a `RuntimeError`
(except in the accidental corner `n = 2`, not modelled); in the non-constant
branch, `self.temperature_dist_params[-1]` on a bare float raises `TypeError`. -/
def mooEncodeConditionalInformation (task : SEHMOOTaskState)
    (preferences : List (List ℚ)) : Except PyError MOOCondInfo :=
  let n := preferences.length
  let d := task.base.numThermometerDim
  let betaAndEnc : Except PyError (List ℚ × List (List ℚ)) :=
    if task.base.temperatureSampleDist = "constant" then
      match task.base.temperatureDistParams with
      | .scalar x => .ok (List.replicate n x, List.replicate n (List.replicate d 0))
      | .pair _ _ => .error (.runtimeError "The size of tensor a must match the size of tensor b")
    else
      match task.base.temperatureDistParams with
      | .pair _ b => .ok (List.replicate n b, List.replicate n (List.replicate d 1))
      | .scalar _ => .error (.typeError "float object is not subscriptable")
  match betaAndEnc with
  | .error e => .error e
  | .ok (beta, betaEnc) =>
    let encoding :=
      if task.usePrefThermometer then
        List.zipWith (fun a b => a ++ b) betaEnc
          (preferences.map (fun p => (p.map (thermometer d 0 1)).flatten))
      else
        List.zipWith (fun a b => a ++ b) betaEnc preferences
    .ok ⟨beta, encoding, preferences⟩

/-- Specification of the preference-encoding scheme shared by training-time
sampling and validation-time encoding: thermometer binning of each preference
component over `[0, 1]` with `num_thermometer_dim` bins when
`use_pref_thermometer` is set, the raw preference vector otherwise. -/
def prefEncoding (usePrefThermometer : Bool) (d : Nat) (p : List ℚ) : List ℚ :=
  if usePrefThermometer then (p.map (thermometer d 0 1)).flatten else p

/-- Handle standing for a constructed `SEHFragTrainer` (line 53 of `job.py`). -/
structure SEHFragTrainerHandle where
  hps : JobHps
deriving DecidableEq, Repr

/-- `job.py` top level: build the dict, then (lines 46-55) construct the
trainer and run it; an exception during configuration propagates and the
trainer is never constructed. -/
def jobMain (part totalParts : Option Int) : Except PyError SEHFragTrainerHandle :=
  match jobConfigure part totalParts with
  | (_, some e) => .error e
  | (hps, none) => .ok ⟨hps⟩

/-!
## Shared helper lemmas
-/

/-- Elementwise lookup in a `zipWith`. -/
lemma zipWith_lookup {α β γ : Type} (f : α → β → γ) (xs : List α) (ys : List β)
    (i : Nat) (x : α) (y : β) (hx : xs[i]? = some x) (hy : ys[i]? = some y) :
    (List.zipWith f xs ys)[i]? = some (f x y) := by
  simp [List.getElem?_zipWith', hx, hy]

/-- When every molecule converts, `filterMap` over the converted list is the
list of converted graphs in order. -/
lemma filterMap_conversions (mol2graph : Mol → Option Graph) :
    ∀ (mols : List Mol), (∀ m ∈ mols, (mol2graph m).isSome) →
      (mols.map mol2graph).filterMap id
        = mols.map (fun m => (mol2graph m).getD ⟨0⟩) := by
  intro mols h
  induction mols with
  | nil => simp
  | cons m rest ih =>
    obtain ⟨g, hg⟩ := Option.isSome_iff_exists.mp (h m (by simp))
    simp [hg, ih (fun x hx => h x (by simp [hx]))]

/-- When every entry of the flag list is true, filtering the zip keeps the
whole list. -/
lemma zip_filter_all_true (f : Mol → Bool) :
    ∀ (mols : List Mol), (∀ m ∈ mols, f m = true) →
      (((mols.zip (mols.map f)).filter (fun p => p.2)).map (fun p => p.1)) = mols := by
  intro mols h
  induction mols with
  | nil => simp
  | cons m rest ih =>
    simp [List.filter_cons, h m (by simp), ih (fun x hx => h x (by simp [hx]))]

/-- `torch.stack` of columns that are maps over a common molecule list. -/
lemma stackCols_of_maps (fs : List (Mol → ℚ)) (l : List Mol) :
    stackCols (fs.map (fun f => l.map f)) l.length
      = l.map (fun m => fs.map (fun f => f m)) := by
  apply List.ext_getElem
  · simp [stackCols]
  · intro i hi1 hi2
    have hlt : i < l.length := by simpa using hi2
    simp only [stackCols, List.getElem_map, List.getElem_range, List.map_map]
    apply List.map_congr_left
    intro f _
    simp [List.getD_eq_getElem?_getD, List.getElem?_eq_getElem hlt]

/-- `safe` substitutes the default when the descriptor raises. -/
lemma safe_of_error (f : Mol → Except PyError ℚ) (x : Mol) (d : ℚ) (e : PyError)
    (h : f x = .error e) : safe f x d = d := by
  simp [safe, h]

/-- Unfiltered (non-sharded) single-objective reward computation over a batch
in which every molecule converts to a valid graph. -/
lemma sehComputeFlatRewards_unfiltered (mol2graph : Mol → Option Graph)
    (proxy : Graph → ℚ) (kmeans : Mol → Int) (mols : List Mol)
    (hvalid : ∀ m ∈ mols, (mol2graph m).isSome) :
    sehComputeFlatRewards none mol2graph proxy kmeans mols
      = .ok (⟨mols.length, 1,
          mols.map (fun m =>
            [clipQ (flatRewardTransform (proxy ((mol2graph m).getD ⟨0⟩))) (1 / 10000) 100])⟩,
          mols.map (fun m => (mol2graph m).isSome)) := by
  cases mols with
  | nil => rfl
  | cons m rest =>
    have hm : (mol2graph m).isSome = true := hvalid m (by simp)
    have hany : ((((m :: rest).map mol2graph).map Option.isSome).any id) = true := by
      simp [hm]
    have hfm := filterMap_conversions mol2graph (m :: rest) hvalid
    simp only [sehComputeFlatRewards, hany, Bool.not_true, Bool.false_eq_true, if_false]
    rw [hfm]
    simp [List.map_map, Function.comp_def]

/-- Sharded single-objective reward computation over an all-valid batch:
molecules in partitions other than `p` get the prediction zeroed before the
transform and the clip. -/
lemma sehComputeFlatRewards_sharded (mol2graph : Mol → Option Graph)
    (proxy : Graph → ℚ) (kmeans : Mol → Int) (p : Int) (mols : List Mol)
    (hvalid : ∀ m ∈ mols, (mol2graph m).isSome) :
    sehComputeFlatRewards (some p) mol2graph proxy kmeans mols
      = .ok (⟨mols.length, 1,
          mols.map (fun m =>
            [clipQ (flatRewardTransform
                (if kmeans m ≠ p then 0 else proxy ((mol2graph m).getD ⟨0⟩)))
              (1 / 10000) 100])⟩,
          mols.map (fun m => (mol2graph m).isSome)) := by
  cases mols with
  | nil => rfl
  | cons m rest =>
    have hm : (mol2graph m).isSome = true := hvalid m (by simp)
    have hany : ((((m :: rest).map mol2graph).map Option.isSome).any id) = true := by
      simp [hm]
    have hfm := filterMap_conversions mol2graph (m :: rest) hvalid
    simp only [sehComputeFlatRewards, hany, Bool.not_true, Bool.false_eq_true, if_false]
    rw [hfm]
    rw [show (((m :: rest).map (fun x => (mol2graph x).getD ⟨0⟩)).map proxy)
          = (m :: rest).map (fun x => proxy ((mol2graph x).getD ⟨0⟩)) by
        simp [List.map_map, Function.comp_def]]
    rw [show (((m :: rest).map kmeans).map (fun q => decide (q ≠ p)))
          = (m :: rest).map (fun x => decide (kmeans x ≠ p)) by
        simp [List.map_map, Function.comp_def]]
    rw [maskedZero, if_pos (by simp)]
    rw [List.zip_map']
    simp [List.map_map, Function.comp_def]

/-- The per-molecule entry functions of `SEHMOOTask.compute_flat_rewards`
over an all-valid batch, in the fixed seh, qed, sa, mw column order. -/
def mooEntryFuns (mol2graph : Mol → Option Graph) (proxy : Graph → ℚ)
    (qedF saF mwF : Mol → Except PyError ℚ) (objectives : List String) :
    List (Mol → ℚ) :=
  (if objectives.contains "seh" then
    [fun m => clipQ (proxy ((mol2graph m).getD ⟨0⟩)) (1 / 10000) 100 / 8] else []) ++
  (if objectives.contains "qed" then [fun m => safe qedF m 0] else []) ++
  (if objectives.contains "sa" then [fun m => (10 - safe saF m 10) / 9] else []) ++
  (if objectives.contains "mw" then
    [fun m => clipQ ((300 - safe mwF m 1000) / 700 + 1) 0 1] else [])

/-- Multi-objective reward computation over a nonempty all-valid batch:
one row per molecule, one column per selected objective. -/
lemma mooComputeFlatRewards_all_valid (objectives : List String)
    (mol2graph : Mol → Option Graph) (proxy : Graph → ℚ)
    (qedF saF mwF : Mol → Except PyError ℚ) (mols : List Mol)
    (hne : mols ≠ []) (hvalid : ∀ m ∈ mols, (mol2graph m).isSome) :
    mooComputeFlatRewards objectives mol2graph proxy qedF saF mwF mols
      = (⟨mols.length, (mooEntryFuns mol2graph proxy qedF saF mwF objectives).length,
          mols.map (fun m =>
            (mooEntryFuns mol2graph proxy qedF saF mwF objectives).map (fun f => f m))⟩,
        mols.map (fun m => (mol2graph m).isSome)) := by
  have hiv : (mols.map mol2graph).map Option.isSome
      = mols.map (fun m => (mol2graph m).isSome) := by
    simp [List.map_map, Function.comp_def]
  have hany : ((mols.map mol2graph).map Option.isSome).any id = true := by
    cases mols with
    | nil => exact absurd rfl hne
    | cons m rest => simp [hvalid m (by simp)]
  have hvm : ((mols.zip ((mols.map mol2graph).map Option.isSome)).filter
        (fun p => p.2)).map (fun p => p.1) = mols := by
    rw [hiv]
    exact zip_filter_all_true _ mols (fun m hm => hvalid m hm)
  have hseh : ((mols.map mol2graph).filterMap id).map
        (fun g => clipQ (proxy g) (1 / 10000) 100 / 8)
      = mols.map (fun m => clipQ (proxy ((mol2graph m).getD ⟨0⟩)) (1 / 10000) 100 / 8) := by
    rw [filterMap_conversions mol2graph mols hvalid]
    simp [List.map_map, Function.comp_def]
  have hchoose : (if objectives.contains "seh" then
        [mols.map (fun m => clipQ (proxy ((mol2graph m).getD ⟨0⟩)) (1 / 10000) 100 / 8)]
       else []) ++
      (if objectives.contains "qed" then [mols.map (fun m => safe qedF m 0)] else []) ++
      (if objectives.contains "sa" then
        [mols.map (fun m => (10 - safe saF m 10) / 9)] else []) ++
      (if objectives.contains "mw" then
        [mols.map (fun m => clipQ ((300 - safe mwF m 1000) / 700 + 1) 0 1)] else [])
      = (mooEntryFuns mol2graph proxy qedF saF mwF objectives).map
          (fun f => mols.map f) := by
    simp only [mooEntryFuns, List.map_append, apply_ite (List.map (fun f => mols.map f)),
      List.map_cons, List.map_nil]
  simp only [mooComputeFlatRewards, hany, Bool.not_true, Bool.false_eq_true, if_false,
    hvm, hseh]
  rw [hchoose, stackCols_of_maps]
  simp [hiv]

/-!
## Claim theorems
-/

/-- C1 counterexample: in sharded-reward mode, a valid molecule classified
into partition 1 while the worker is assigned partition 0 has returned flat
reward `1/10000` (the clip lower bound applied after zeroing), not exactly 0
as the claim states. -/
theorem sharded_reward_zero_counterexample :
    sehComputeFlatRewards (some 0) (fun _ => some ⟨0⟩) (fun _ => 8) (fun _ => 1) [⟨0⟩]
      = .ok (⟨1, 1, [[1 / 10000]]⟩, [true]) ∧ ((1 : ℚ) / 10000 ≠ 0) := by
  constructor
  · rw [sehComputeFlatRewards_sharded (fun _ => some ⟨0⟩) (fun _ => 8) (fun _ => 1) 0 [⟨0⟩]
      (by simp)]
    norm_num [clipQ, flatRewardTransform, max_def, min_def]
  · norm_num

/-- C1 (amended): in sharded-reward mode over a batch whose molecules all
convert to valid graphs, a molecule whose k-means partition differs from the
assigned partition has flat reward `1/10000` — the prediction is zeroed and
then the `[1e-4, 100]` clip raises it to the lower bound — while a molecule
whose partition matches has its flat reward exactly equal to the value of the
unfiltered (non-sharded) computation. -/
theorem sharded_reward_partition_filtering (mol2graph : Mol → Option Graph)
    (proxy : Graph → ℚ) (kmeans : Mol → Int) (p : Int) (mols : List Mol)
    (hvalid : ∀ m ∈ mols, (mol2graph m).isSome) :
    sehComputeFlatRewards (some p) mol2graph proxy kmeans mols
      = .ok (⟨mols.length, 1,
          mols.map (fun m =>
            if kmeans m = p then
              [clipQ (flatRewardTransform (proxy ((mol2graph m).getD ⟨0⟩))) (1 / 10000) 100]
            else [1 / 10000])⟩,
          mols.map (fun m => (mol2graph m).isSome)) ∧
    sehComputeFlatRewards none mol2graph proxy kmeans mols
      = .ok (⟨mols.length, 1,
          mols.map (fun m =>
            [clipQ (flatRewardTransform (proxy ((mol2graph m).getD ⟨0⟩))) (1 / 10000) 100])⟩,
          mols.map (fun m => (mol2graph m).isSome)) := by
  refine ⟨?_, sehComputeFlatRewards_unfiltered mol2graph proxy kmeans mols hvalid⟩
  rw [sehComputeFlatRewards_sharded mol2graph proxy kmeans p mols hvalid]
  have hmap : mols.map (fun m =>
        [clipQ (flatRewardTransform
            (if kmeans m ≠ p then 0 else proxy ((mol2graph m).getD ⟨0⟩)))
          (1 / 10000) 100])
      = mols.map (fun m =>
          if kmeans m = p then
            [clipQ (flatRewardTransform (proxy ((mol2graph m).getD ⟨0⟩))) (1 / 10000) 100]
          else [1 / 10000]) := by
    apply List.map_congr_left
    intro x _
    by_cases hk : kmeans x = p
    · simp [hk]
    · simp only [hk, if_false, ne_eq, not_false_eq_true, if_true]
      norm_num [clipQ, flatRewardTransform, max_def, min_def]
  rw [hmap]

/-- C1 witness: a two-molecule batch, one in the assigned partition 0 and one
outside it. -/
theorem sharded_reward_partition_filtering_witness :
    sehComputeFlatRewards (some 0) (fun _ => some ⟨0⟩) (fun _ => 16)
        (fun m => (m.id : Int)) [⟨0⟩, ⟨1⟩]
      = .ok (⟨2, 1, [[2], [1 / 10000]]⟩, [true, true]) ∧
    sehComputeFlatRewards none (fun _ => some ⟨0⟩) (fun _ => 16)
        (fun m => (m.id : Int)) [⟨0⟩, ⟨1⟩]
      = .ok (⟨2, 1, [[2], [2]]⟩, [true, true]) := by
  obtain ⟨h1, h2⟩ := sharded_reward_partition_filtering (fun _ => some ⟨0⟩)
    (fun _ => 16) (fun m => (m.id : Int)) 0 [⟨0⟩, ⟨1⟩] (by simp)
  constructor
  · rw [h1]
    norm_num [clipQ, flatRewardTransform, max_def, min_def]
  · rw [h2]
    norm_num [clipQ, flatRewardTransform, max_def, min_def]

/-- C4 counterexample: with a proxy output of 1000 on a valid molecule, the
multi-objective seh component is `clip(1000, 1e-4, 100) / 8 = 25/2`, not the
unclipped `1000 / 8 = 125` the claim asserts: the clip-to-range IS applied
inside the multi-objective `compute_flat_rewards`. -/
theorem moo_seh_unclipped_counterexample :
    ((mooComputeFlatRewards ["seh"] (fun _ => some ⟨0⟩) (fun _ => 1000)
        (fun _ => .ok 0) (fun _ => .ok 0) (fun _ => .ok 0) [⟨0⟩]).1).data = [[25 / 2]] ∧
    (25 / 2 : ℚ) ≠ 1000 / 8 := by
  constructor
  · rw [mooComputeFlatRewards_all_valid ["seh"] (fun _ => some ⟨0⟩) (fun _ => 1000)
      (fun _ => .ok 0) (fun _ => .ok 0) (fun _ => .ok 0) [⟨0⟩] (by simp) (by simp)]
    norm_num [mooEntryFuns, clipQ, max_def, min_def]
    decide
  · norm_num

/-- C4 (amended): for a nonempty all-valid batch in the multi-objective task,
the seh component of the flat reward equals `clip(proxy, 1e-4, 100) / 8` —
the `[1e-4, 100]` clip is applied inside `compute_flat_rewards`, to the raw
proxy output, before the division by 8 — whereas the single-objective task
divides by 8 first and clips the quotient to `[1e-4, 100]`. -/
theorem moo_seh_component_transform (mol2graph : Mol → Option Graph)
    (proxy : Graph → ℚ) (kmeans : Mol → Int)
    (qedF saF mwF : Mol → Except PyError ℚ) (mols : List Mol)
    (hne : mols ≠ []) (hvalid : ∀ m ∈ mols, (mol2graph m).isSome) :
    ((mooComputeFlatRewards ["seh"] mol2graph proxy qedF saF mwF mols).1).data
      = mols.map (fun m =>
          [clipQ (proxy ((mol2graph m).getD ⟨0⟩)) (1 / 10000) 100 / 8]) ∧
    sehComputeFlatRewards none mol2graph proxy kmeans mols
      = .ok (⟨mols.length, 1,
          mols.map (fun m =>
            [clipQ (proxy ((mol2graph m).getD ⟨0⟩) / 8) (1 / 10000) 100])⟩,
          mols.map (fun m => (mol2graph m).isSome)) := by
  constructor
  · rw [mooComputeFlatRewards_all_valid ["seh"] mol2graph proxy qedF saF mwF mols
      hne hvalid]
    simp [mooEntryFuns]
  · have h := sehComputeFlatRewards_unfiltered mol2graph proxy kmeans mols hvalid
    simpa [flatRewardTransform] using h

/-- C4 witness: a proxy output of 1000, clipped to 100 before dividing in the
multi-objective task, and divided to 125 before clipping to 100 in the
single-objective task. -/
theorem moo_seh_component_transform_witness :
    ((mooComputeFlatRewards ["seh"] (fun _ => some ⟨0⟩) (fun _ => 1000)
        (fun _ => .ok 0) (fun _ => .ok 0) (fun _ => .ok 0) [⟨0⟩]).1).data
      = [[25 / 2]] ∧
    sehComputeFlatRewards none (fun _ => some ⟨0⟩) (fun _ => 1000) (fun _ => 0) [⟨0⟩]
      = .ok (⟨1, 1, [[100]]⟩, [true]) := by
  obtain ⟨h1, h2⟩ := moo_seh_component_transform (fun _ => some ⟨0⟩) (fun _ => 1000)
    (fun _ => 0) (fun _ => .ok 0) (fun _ => .ok 0) (fun _ => .ok 0) [⟨0⟩]
    (by simp) (by simp)
  constructor
  · rw [h1]
    norm_num [clipQ, max_def, min_def]
  · rw [h2]
    norm_num [clipQ, max_def, min_def]

/-- C6: for a valid molecule on which the qed, sa and mw descriptor
computations all raise, `SEHMOOTask.compute_flat_rewards` substitutes the
worst-case defaults locally — qed entry 0, sa default 10 mapping to reward
`(10-10)/9 = 0`, mw default 1000 mapping to reward 0 — and still returns one
reward row per molecule of the batch instead of raising. -/
theorem moo_descriptor_failure_defaults (mol2graph : Mol → Option Graph)
    (proxy : Graph → ℚ) (qedF saF mwF : Mol → Except PyError ℚ) (mols : List Mol)
    (m : Mol) (i : Nat) (e1 e2 e3 : PyError)
    (hvalid : ∀ x ∈ mols, (mol2graph x).isSome)
    (hi : mols[i]? = some m)
    (hq : qedF m = .error e1) (hs : saF m = .error e2) (hw : mwF m = .error e3) :
    ((mooComputeFlatRewards ["seh", "qed", "sa", "mw"] mol2graph proxy qedF saF mwF
        mols).1).data[i]?
      = some [clipQ (proxy ((mol2graph m).getD ⟨0⟩)) (1 / 10000) 100 / 8, 0, 0, 0] ∧
    ((mooComputeFlatRewards ["seh", "qed", "sa", "mw"] mol2graph proxy qedF saF mwF
        mols).1).rows = mols.length ∧
    (mooComputeFlatRewards ["seh", "qed", "sa", "mw"] mol2graph proxy qedF saF mwF
        mols).2 = mols.map (fun x => (mol2graph x).isSome) := by
  have hne : mols ≠ [] := by
    intro h
    rw [h] at hi
    simp at hi
  rw [mooComputeFlatRewards_all_valid _ mol2graph proxy qedF saF mwF mols hne hvalid]
  refine ⟨?_, by simp, rfl⟩
  rw [List.getElem?_map, hi, Option.map_some']
  congr 1
  simp [mooEntryFuns, safe, hq, hs, hw]
  norm_num [clipQ, max_def, min_def]

/-- C6 witness: one valid molecule whose three descriptors all raise. -/
theorem moo_descriptor_failure_defaults_witness :
    ((mooComputeFlatRewards ["seh", "qed", "sa", "mw"] (fun _ => some ⟨0⟩)
        (fun _ => 8) (fun _ => .error (.runtimeError "boom"))
        (fun _ => .error (.runtimeError "boom"))
        (fun _ => .error (.runtimeError "boom")) [⟨0⟩]).1).data[0]?
      = some [1, 0, 0, 0] ∧
    ((mooComputeFlatRewards ["seh", "qed", "sa", "mw"] (fun _ => some ⟨0⟩)
        (fun _ => 8) (fun _ => .error (.runtimeError "boom"))
        (fun _ => .error (.runtimeError "boom"))
        (fun _ => .error (.runtimeError "boom")) [⟨0⟩]).1).rows = 1 := by
  obtain ⟨h1, h2, -⟩ := moo_descriptor_failure_defaults (fun _ => some ⟨0⟩)
    (fun _ => 8) (fun _ => .error (.runtimeError "boom"))
    (fun _ => .error (.runtimeError "boom")) (fun _ => .error (.runtimeError "boom"))
    [⟨0⟩] ⟨0⟩ 0 (.runtimeError "boom") (.runtimeError "boom") (.runtimeError "boom")
    (by simp) rfl rfl rfl rfl
  constructor
  · rw [h1]
    norm_num [clipQ, max_def, min_def]
  · rw [h2]
    rfl

/-- C5: when no molecule in the input converts to a valid graph, both reward
computations return, without raising, a reward tensor with zero rows and one
column per objective (1 for the single-objective task, `objectives.length` for
the multi-objective one), together with a validity mask that is false at every
position. -/
theorem compute_flat_rewards_all_invalid (objectives : List String)
    (mol2graph : Mol → Option Graph) (proxy : Graph → ℚ) (kmeans : Mol → Int)
    (qedF saF mwF : Mol → Except PyError ℚ) (part : Option Int) (mols : List Mol)
    (hinv : ∀ m ∈ mols, mol2graph m = none) :
    sehComputeFlatRewards part mol2graph proxy kmeans mols
      = .ok (⟨0, 1, []⟩, mols.map (fun _ => false)) ∧
    mooComputeFlatRewards objectives mol2graph proxy qedF saF mwF mols
      = (⟨0, objectives.length, []⟩, mols.map (fun _ => false)) := by
  have hval : (mols.map mol2graph).map Option.isSome = mols.map (fun _ => false) := by
    rw [List.map_map]
    apply List.map_congr_left
    intro x hx
    simp [Function.comp, hinv x hx]
  have hany : (mols.map (fun _ => false)).any id = false := by simp
  constructor
  · simp only [sehComputeFlatRewards, hval, hany, Bool.not_false, if_true]
  · simp only [mooComputeFlatRewards, hval, hany, Bool.not_false, if_true]

/-- C5 witness: a two-molecule batch in which nothing converts. -/
theorem compute_flat_rewards_all_invalid_witness :
    sehComputeFlatRewards none (fun _ => none) (fun _ => 0) (fun _ => 0) [⟨0⟩, ⟨1⟩]
      = .ok (⟨0, 1, []⟩, [false, false]) ∧
    mooComputeFlatRewards ["seh", "qed", "sa", "mw"] (fun _ => none) (fun _ => 0)
        (fun _ => .ok 0) (fun _ => .ok 0) (fun _ => .ok 0) [⟨0⟩, ⟨1⟩]
      = (⟨0, 4, []⟩, [false, false]) := by
  obtain ⟨h1, h2⟩ := compute_flat_rewards_all_invalid ["seh", "qed", "sa", "mw"]
    (fun _ => none) (fun _ => 0) (fun _ => 0) (fun _ => .ok 0) (fun _ => .ok 0)
    (fun _ => .ok 0) none [⟨0⟩, ⟨1⟩] (by simp)
  exact ⟨by rw [h1]; rfl, by rw [h2]; rfl⟩

/-- C2: elementwise, the single-objective scalarization returns
`log(clamp(reward, min=1e-30)) * beta` and the multi-objective one returns
`log(clamp(sum(flat_reward * preferences), min=1e-30)) * beta`, where the
clamp floor `1e-30` is a fixed positive minimum, so the argument of the log is
always positive (hence the log-reward is finite). -/
theorem cond_info_to_logreward_formula (log : ℚ → ℚ) (beta : List ℚ)
    (flat preferences mflat : List (List ℚ)) (i : Nat)
    (row mrow prow : List ℚ) (b : ℚ)
    (hf : flat[i]? = some row) (hb : beta[i]? = some b)
    (hm : mflat[i]? = some mrow) (hp : preferences[i]? = some prow) :
    (sehCondInfoToLogreward log beta flat)[i]?
      = some (log (clampMin (1 / 10 ^ 30) (row.headD 0)) * b) ∧
    (mooCondInfoToLogreward log beta preferences mflat)[i]?
      = some (log (clampMin (1 / 10 ^ 30) (dotQ mrow prow)) * b) ∧
    0 < clampMin (1 / 10 ^ 30) (row.headD 0) ∧
    0 < clampMin (1 / 10 ^ 30) (dotQ mrow prow) := by
  have hpos : ∀ x : ℚ, 0 < clampMin (1 / 10 ^ 30) x := fun x =>
    lt_of_lt_of_le (by norm_num) (le_max_left _ _)
  refine ⟨?_, ?_, hpos _, hpos _⟩
  · simp only [sehCondInfoToLogreward]
    apply zipWith_lookup _ _ _ _ _ _ _ hb
    simp [squeezeCol, List.getElem?_map, hf]
  · simp only [mooCondInfoToLogreward]
    apply zipWith_lookup _ _ _ _ _ _ _ hb
    rw [List.getElem?_map, zipWith_lookup dotQ mflat preferences i mrow prow hm hp,
      Option.map_some']

/-- C2 witness: one batch entry for each task, with the identity standing in
for the external float log kernel. -/
theorem cond_info_to_logreward_formula_witness :
    (sehCondInfoToLogreward id [2] [[3]])[0]? = some 6 ∧
    (mooCondInfoToLogreward id [2] [[1 / 2, 1 / 2]] [[4, 6]])[0]? = some 10 ∧
    (0 : ℚ) < clampMin (1 / 10 ^ 30) 3 := by
  obtain ⟨h1, h2, h3, -⟩ := cond_info_to_logreward_formula id [2] [[3]]
    [[1 / 2, 1 / 2]] [[4, 6]] 0 [3] [4, 6] [1 / 2, 1 / 2] 2 rfl rfl rfl rfl
  refine ⟨?_, ?_, h3⟩
  · rw [h1]
    norm_num [clampMin, max_def]
  · rw [h2]
    norm_num [clampMin, max_def, dotQ]

/-- C3: at every batch size `n ≥ 1` the multi-objective scalarization returns
the log-reward with shape exactly `beta`'s shape `(n,)`; so does the
single-objective one for `n ≥ 2`, while at batch size 1 its `squeeze`
collapses the reward to a 0-dim tensor and the guarding assert raises an
`AssertionError` before returning, rather than silently broadcasting. -/
theorem cond_info_to_logreward_shape (n k : Nat) (hn : 1 ≤ n) (_hk : 1 ≤ k) :
    mooCondInfoToLogrewardShape [n, k] [n, k] [n] = .ok [n] ∧
    (2 ≤ n → sehCondInfoToLogrewardShape [n, 1] [n] = .ok [n]) ∧
    (n = 1 → sehCondInfoToLogrewardShape [n, 1] [n]
        = .error (.assertionError "dangerous shape mismatch")) := by
  refine ⟨?_, ?_, ?_⟩
  · simp [mooCondInfoToLogrewardShape, broadcastShapes, broadcastRev, sumOutDim]
  · intro h2
    have hne : n ≠ 1 := by omega
    simp [sehCondInfoToLogrewardShape, squeezeShape, hne, broadcastShapes, broadcastRev]
  · intro h1
    subst h1
    rfl

/-- C3 witness: batch size 1 — the multi-objective scalarization returns
shape `(1,)`, the single-objective one raises the assert. -/
theorem cond_info_to_logreward_shape_witness :
    mooCondInfoToLogrewardShape [1, 2] [1, 2] [1] = .ok [1] ∧
    sehCondInfoToLogrewardShape [1, 1] [1]
      = .error (.assertionError "dangerous shape mismatch") := by
  obtain ⟨h1, -, h3⟩ := cond_info_to_logreward_shape 1 2 (by norm_num) (by norm_num)
  exact ⟨h1, h3 rfl⟩

/-- C7 counterexample: constructing an `SEHTask` with the unsupported family
`cauchy` succeeds — there is no configuration error at setup — and the failure
only surfaces when `sample_conditional_information` is first called, as a
`RuntimeError` from evaluating `torch.tensor(None)`, not as a configuration
error. -/
theorem unsupported_family_counterexample :
    sehTaskInit "cauchy" (.pair 2 4) 32 = .ok ⟨"cauchy", .pair 2 4, 32⟩ ∧
    sehSampleConditionalInformation (fun _ _ _ => 0) (fun _ _ _ => 0) (fun _ _ _ => 0)
        (fun _ _ => 0) id id ⟨"cauchy", .pair 2 4, 32⟩ 4
      = .error (.runtimeError "Could not infer dtype of NoneType") :=
  ⟨rfl, rfl⟩

/-- C7 (amended): a `temperature_sample_dist` outside the supported set
{constant, gamma, uniform, loguniform, beta} is not rejected at task
construction; the program instead fails at the first
`sample_conditional_information` call, with a `RuntimeError` from
`torch.tensor(None)` rather than a configuration error at setup. -/
theorem unsupported_family_runtime_failure (dist : String)
    (h : dist ∉ ["constant", "gamma", "uniform", "loguniform", "beta"])
    (params : TDParams) (d n : Nat)
    (rngGamma rngUniform rngBeta : ℚ → ℚ → Nat → ℚ)
    (gammaPpf95 : ℚ → ℚ → ℚ) (expQ logQ : ℚ → ℚ) :
    sehTaskInit dist params d = .ok ⟨dist, params, d⟩ ∧
    sehSampleConditionalInformation rngGamma rngUniform rngBeta gammaPpf95 expQ logQ
        ⟨dist, params, d⟩ n
      = .error (.runtimeError "Could not infer dtype of NoneType") := by
  simp only [List.mem_cons, List.not_mem_nil, or_false] at h
  push_neg at h
  obtain ⟨h1, h2, h3, h4, h5⟩ := h
  exact ⟨rfl, by simp [sehSampleConditionalInformation, h1, h2, h3, h4, h5]⟩

/-- C7 witness: the family name `cauchy`. -/
theorem unsupported_family_runtime_failure_witness :
    sehTaskInit "cauchy" (.scalar 32) 16 = .ok ⟨"cauchy", .scalar 32, 16⟩ ∧
    sehSampleConditionalInformation (fun _ _ _ => 1) (fun _ _ _ => 1) (fun _ _ _ => 1)
        (fun _ _ => 1) id id ⟨"cauchy", .scalar 32, 16⟩ 8
      = .error (.runtimeError "Could not infer dtype of NoneType") :=
  unsupported_family_runtime_failure "cauchy" (by decide) (.scalar 32) 16 8
    (fun _ _ _ => 1) (fun _ _ _ => 1) (fun _ _ _ => 1) (fun _ _ => 1) id id

/-- C8: validation-time `encode_conditional_information` applies to its
preference rows exactly the preference-encoding scheme that training-time
`sample_conditional_information` applies to the sampled preference rows —
`prefEncoding`, i.e. thermometer binning over `[0, 1]` with
`num_thermometer_dim` bins when `use_pref_thermometer` is set and the raw
preference vector otherwise — concatenated after the beta encoding in the
same order. -/
theorem encode_matches_sample_encoding
    (rngGamma rngUniform rngBeta : ℚ → ℚ → Nat → ℚ)
    (gammaPpf95 : ℚ → ℚ → ℚ) (expQ logQ : ℚ → ℚ)
    (dirichletExpSample dirichletSample : Nat → List ℚ)
    (task : SEHMOOTaskState) (n : Nat) (prefs : List (List ℚ))
    (ci : CondInfo) (cis cie : MOOCondInfo)
    (hbase : sehSampleConditionalInformation rngGamma rngUniform rngBeta gammaPpf95
        expQ logQ task.base n = .ok ci)
    (hs : mooSampleConditionalInformation rngGamma rngUniform rngBeta gammaPpf95
        expQ logQ dirichletExpSample dirichletSample task n = .ok cis)
    (he : mooEncodeConditionalInformation task prefs = .ok cie) :
    cis.encoding = List.zipWith (fun a b => a ++ b) ci.encoding
        (cis.preferences.map
          (prefEncoding task.usePrefThermometer task.base.numThermometerDim)) ∧
    cie.encoding = List.zipWith (fun a b => a ++ b)
        (List.replicate prefs.length
          (if task.base.temperatureSampleDist = "constant" then
            List.replicate task.base.numThermometerDim 0
           else List.replicate task.base.numThermometerDim 1))
        (prefs.map (prefEncoding task.usePrefThermometer task.base.numThermometerDim)) ∧
    cie.preferences = prefs := by
  have hid : prefEncoding false task.base.numThermometerDim = fun p => p := by
    funext p
    simp [prefEncoding]
  have hth : prefEncoding true task.base.numThermometerDim
      = fun p => (p.map (thermometer task.base.numThermometerDim 0 1)).flatten := by
    funext p
    simp [prefEncoding]
  have hmapenc : ∀ (l : List (List ℚ)),
      (if task.usePrefThermometer then
        l.map (fun p => (p.map (thermometer task.base.numThermometerDim 0 1)).flatten)
       else l)
      = l.map (prefEncoding task.usePrefThermometer task.base.numThermometerDim) := by
    intro l
    cases hupt : task.usePrefThermometer
    · rw [hid]
      simp
    · rw [hth]
      simp
  have henc : ∀ (E l : List (List ℚ)),
      (if task.usePrefThermometer then
        List.zipWith (fun a b => a ++ b) E
          (l.map (fun p => (p.map (thermometer task.base.numThermometerDim 0 1)).flatten))
       else List.zipWith (fun a b => a ++ b) E l)
      = List.zipWith (fun a b => a ++ b) E
          (l.map (prefEncoding task.usePrefThermometer task.base.numThermometerDim)) := by
    intro E l
    rw [← hmapenc l]
    cases task.usePrefThermometer <;> simp
  simp only [mooSampleConditionalInformation, hbase] at hs
  rw [Except.ok.injEq] at hs
  subst hs
  simp only [mooEncodeConditionalInformation] at he
  refine ⟨by simp only [hmapenc], ?_⟩
  by_cases hc : task.base.temperatureSampleDist = "constant"
  · cases hparams : task.base.temperatureDistParams with
    | scalar x =>
      rw [hc, hparams] at he
      rw [if_pos rfl] at he
      rw [Except.ok.injEq] at he
      subst he
      refine ⟨?_, rfl⟩
      rw [if_pos hc]
      exact henc _ _
    | pair a b =>
      rw [hc, hparams] at he
      simp at he
  · cases hparams : task.base.temperatureDistParams with
    | scalar x =>
      rw [hparams] at he
      rw [if_neg hc] at he
      simp at he
    | pair a b =>
      rw [hparams] at he
      rw [if_neg hc] at he
      rw [Except.ok.injEq] at he
      subst he
      refine ⟨?_, rfl⟩
      rw [if_neg hc]
      exact henc _ _

/-- C8 witness: a constant-temperature configuration without the preference
thermometer, one sampled preference row and the same fixed preference row at
encoding time. -/
theorem encode_matches_sample_encoding_witness :
    mooSampleConditionalInformation (fun _ _ _ => 0) (fun _ _ _ => 0) (fun _ _ _ => 0)
        (fun _ _ => 0) id id (fun _ => [1, 0]) (fun _ => [1, 0])
        ⟨⟨"constant", .scalar 32, 1⟩, ["seh", "qed"], false, none, false⟩ 1
      = .ok ⟨[32], [[0, 1, 0]], [[1, 0]]⟩ ∧
    mooEncodeConditionalInformation
        ⟨⟨"constant", .scalar 32, 1⟩, ["seh", "qed"], false, none, false⟩ [[1, 0]]
      = .ok ⟨[32], [[0, 1, 0]], [[1, 0]]⟩ ∧
    ([[(0 : ℚ), 1, 0]] : List (List ℚ))
      = List.zipWith (fun a b => a ++ b) [[(0 : ℚ)]]
          (([[1, 0]] : List (List ℚ)).map (prefEncoding false 1)) := by
  have hbase : sehSampleConditionalInformation (fun _ _ _ => 0) (fun _ _ _ => 0)
      (fun _ _ _ => 0) (fun _ _ => 0) id id ⟨"constant", .scalar 32, 1⟩ 1
      = .ok ⟨[32], [[0]]⟩ := rfl
  have hs : mooSampleConditionalInformation (fun _ _ _ => 0) (fun _ _ _ => 0)
      (fun _ _ _ => 0) (fun _ _ => 0) id id (fun _ => [1, 0]) (fun _ => [1, 0])
      ⟨⟨"constant", .scalar 32, 1⟩, ["seh", "qed"], false, none, false⟩ 1
      = .ok ⟨[32], [[0, 1, 0]], [[1, 0]]⟩ := rfl
  have he : mooEncodeConditionalInformation
      ⟨⟨"constant", .scalar 32, 1⟩, ["seh", "qed"], false, none, false⟩ [[1, 0]]
      = .ok ⟨[32], [[0, 1, 0]], [[1, 0]]⟩ := rfl
  obtain ⟨h1, -, -⟩ := encode_matches_sample_encoding (fun _ _ _ => 0) (fun _ _ _ => 0)
    (fun _ _ _ => 0) (fun _ _ => 0) id id (fun _ => [1, 0]) (fun _ => [1, 0])
    ⟨⟨"constant", .scalar 32, 1⟩, ["seh", "qed"], false, none, false⟩ 1 [[1, 0]]
    ⟨[32], [[0]]⟩ ⟨[32], [[0, 1, 0]], [[1, 0]]⟩ ⟨[32], [[0, 1, 0]], [[1, 0]]⟩
    hbase hs he
  exact ⟨hs, he, h1⟩

/-- C9: when `sampling_tau > 0`, each sampling-model parameter after `step`
equals `tau` times its previous value plus `1 - tau` times the corresponding
newly trained parameter, and the trained parameters themselves are exactly the
post-optimizer values, unmodified by the EMA update. -/
theorem ema_sampling_model_update (s : TrainerState) (p : List ℚ)
    (h : 0 < s.samplingTau) :
    (trainerStep s p).modelParams = p ∧
    (trainerStep s p).samplingParams
      = List.zipWith (fun a b => b * s.samplingTau + a * (1 - s.samplingTau))
          p s.samplingParams ∧
    (∀ (i : Nat) (a b : ℚ), p[i]? = some a → s.samplingParams[i]? = some b →
      (trainerStep s p).samplingParams[i]?
        = some (s.samplingTau * b + (1 - s.samplingTau) * a)) := by
  refine ⟨by simp [trainerStep], by simp [trainerStep, h], ?_⟩
  intro i a b ha hb
  have := zipWith_lookup
    (fun a b => b * s.samplingTau + a * (1 - s.samplingTau)) p s.samplingParams i a b ha hb
  simp only [trainerStep, if_pos h]
  rw [this]
  ring_nf

/-- C9 witness: one concrete step with `tau = 9/10`. -/
theorem ema_sampling_model_update_witness :
    (trainerStep ⟨[1, 2], [10, 20], 9 / 10⟩ [3, 4]).modelParams = [3, 4] ∧
    (trainerStep ⟨[1, 2], [10, 20], 9 / 10⟩ [3, 4]).samplingParams = [93 / 10, 92 / 5] := by
  obtain ⟨h1, h2, -⟩ :=
    ema_sampling_model_update ⟨[1, 2], [10, 20], 9 / 10⟩ [3, 4] (by norm_num)
  refine ⟨h1, ?_⟩
  rw [h2]
  norm_num

/-- C10: with `--part` supplied and `--total_parts` greater than 1, the
configuration block of `job.py` hits the misspelled dict method `upate` and
raises `AttributeError` during configuration, before the trainer is
constructed, and the `offline_ratio` override to `0.25` is never applied
(it stays at the initial literal value 0). -/
theorem job_upate_typo (p tp : Int) (h : 1 < tp) :
    jobConfigure (some p) (some tp)
      = ({ jobInitialHps with part := some p, totalParts := some tp },
          some (.attributeError "dict object has no attribute upate")) ∧
    (jobConfigure (some p) (some tp)).1.offlineRatio = 0 ∧
    jobMain (some p) (some tp)
      = .error (.attributeError "dict object has no attribute upate") := by
  have hcfg : jobConfigure (some p) (some tp)
      = ({ jobInitialHps with part := some p, totalParts := some tp },
          some (.attributeError "dict object has no attribute upate")) := by
    simp [jobConfigure, h, dictHasAttr, dictMethodNames]
  refine ⟨hcfg, ?_, ?_⟩
  · rw [hcfg]
    simp [jobInitialHps]
  · simp [jobMain, hcfg]

/-- C10 witness: a concrete invocation with `--part 0 --total_parts 2`. -/
theorem job_upate_typo_witness :
    jobMain (some 0) (some 2)
      = .error (.attributeError "dict object has no attribute upate") ∧
    (jobConfigure (some 0) (some 2)).1.offlineRatio = 0 := by
  obtain ⟨-, h2, h3⟩ := job_upate_typo 0 2 (by norm_num)
  exact ⟨h3, h2⟩

end GFN
